import Mathlib

/-!
Verification development for the `sacs-epfl/facade` repository.

Shallow embedding of:
- `src/decentralizepy/node/Node.py` (`Node.__init__`, `Node.run`): the node
  round loop, centralized star-channel evaluation handshake, results-file
  bookkeeping, thread budgeting and finalization, as an explicit effect-trace
  interpreter;
- `src/decentralizepy/models/Model.py` (`Model.count_params`): cache state
  with Python falsiness semantics;
- `eval/testingIFCA_restarts.py` (`__main__` restart loop): the controller
  restart loop over a cross-process early-stop flag.

External collaborators (trainer, sharing, dataset, file system, sockets) are
represented by an environment supplying their observable values, and every
externally visible action of the node is recorded as an `Effect` in a trace.
-/

namespace Facade

/-- Payload of a message on the star (evaluation) channel: either a weight
blob (`model.get_weights()`), the literal string `"finished"`, or any other
string. -/
inductive Payload where
  | weights
  | finished
  | other (s : String)
deriving DecidableEq, Repr

/-- A message as returned by `testing_comm.receive()`: sender uid and payload. -/
structure Message where
  sender : Nat
  payload : Payload
deriving DecidableEq, Repr

/-- One per-metric mapping of the results JSON object: iteration number
(1-based) to scalar. -/
abbrev IterMap := List (Nat × Int)

/-- The per-rank results JSON object: ordered association list from key name
to per-iteration mapping (mirrors a Python `dict` of `dict`s). -/
abbrev ResultsDict := List (String × IterMap)

/-- The fresh results record built on the first iteration of `Node.run`
(`Node.py` lines 422-432): the literal dict with its eight keys. -/
def initResults : ResultsDict :=
  [("train_loss", []), ("test_loss", []), ("test_acc", []),
   ("total_bytes", []), ("total_meta", []), ("total_data_per_n", []),
   ("grad_mean", []), ("grad_std", [])]

/-- Python `m[i] = v` on a per-metric mapping: replace the entry when the key
is present, append it otherwise. -/
def setIter (m : IterMap) (i : Nat) (v : Int) : IterMap :=
  if m.any (fun p => p.1 == i) then
    m.map (fun p => if p.1 == i then (i, v) else p)
  else m ++ [(i, v)]

/-- Python `results_dict[k][i] = v`: update the sub-mapping stored at key `k`.
Every use in `Node.run` hits a key present since initialization. -/
def setEntry (d : ResultsDict) (k : String) (i : Nat) (v : Int) : ResultsDict :=
  d.map (fun p => if p.1 == k then (p.1, setIter p.2 i v) else p)

/-- The key list of a results record (the JSON object's keys, in order). -/
def dictKeys (d : ResultsDict) : List String := d.map Prod.fst

/-- Lookup of the per-iteration mapping stored at key `k` (empty when absent). -/
def getEntry : ResultsDict → String → IterMap
  | [], _ => []
  | p :: rest, k => if p.1 == k then p.2 else getEntry rest k

/-- Whether iteration `i` has an entry in a per-metric mapping. -/
def hasIter (m : IterMap) (i : Nat) : Bool := m.any (fun p => p.1 == i)

/-- Externally visible actions of a node process, in program order. -/
inductive Effect where
  | connectMain (nbrs : List Nat)
  | openStar (nprocs : Nat) (off : Nat)
  | connectStar (nbrs : List Nat)
  | setNumThreads (n : Nat)
  | train (i : Nat)
  | sharingStep (i : Nat)
  | resetOpt (i : Nat)
  | readResults (mode : String)
  | evalTrainLocal (i : Nat)
  | evalTestLocal (i : Nat)
  | helperEval (i : Nat)
  | starSend (dest : Nat) (p : Payload)
  | starReceive (m : Message)
  | writeResults (mode : String) (d : ResultsDict)
  | saveSharedParams (l : List Int)
  | disconnectMain
  | disconnectStar
  | dumpWeights (uid : Nat) (iter : Nat)
deriving DecidableEq, Repr

/-- Errors with which a node process can abort: the handshake assertion at
`Node.py` line 480, and the `NameError` on the undefined loop variable at
line 507 when the loop never ran. -/
inductive RunError where
  | assertionFailed
  | nameError
deriving DecidableEq, Repr

/-- Modelled from the spec: class `Star` (`decentralizepy.graphs.Star`, not
under `src/`): `Star(n)` has `neighbors(0) = {1..n-1}` and
`neighbors(k>0) = {0}`. -/
def starNeighbors (n : Nat) (uid : Nat) : List Nat :=
  if uid = 0 then List.range' 1 (n - 1) else [0]

/-- Modelled from the spec: `Star(n).n_procs` is the star's process count `n`
(the `Graph` interface exposes the vertex count). -/
def starNProcs (n : Nat) : Nat := n

/-- Modelled from the spec: TCP address resolution (`decentralizepy.communication.TCP`
is not under `src/`): absent an address file, the port is derived from the
uid plus the configured additive offset (offset `0` for the main channel). -/
def channelPort (basePort : Nat) (off : Nat) (uid : Nat) : Nat :=
  basePort + off + uid

/-- Static configuration of one node process, as cached by
`Node.cache_fields` plus the ambient collaborator facts `Node.run` branches
on (`dataset.__testing__`, presence of a shared-parameter counter). -/
structure NodeConf where
  uid : Nat
  nProcs : Nat
  iterations : Nat
  testAfter : Int
  trainEvaluateAfter : Int
  resetOptimizer : Bool
  centralizedTrainEval : Bool
  centralizedTestEval : Bool
  datasetTesting : Bool
  sharedParamsCounter : Option (List Int)
  mainNeighbors : List Nat
deriving Repr

/-- Observable values produced by the external collaborators during one
iteration: communication counters (`hasattr` probes modelled as `Option`),
losses, the helper's optional train loss, and the message the star channel
delivers to a non-zero uid during the handshake. -/
structure IterEnv where
  totalBytes : Int
  totalMeta : Option Int
  totalData : Option Int
  gradMean : Option Int
  gradStd : Option Int
  trainLoss : Int
  testAcc : Int
  testLoss : Int
  helperTrainLoss : Option Int
  starMsg : Message
deriving Repr

/-- Mutable state of the round loop in `Node.run`: the two countdown
counters, `global_epoch`, `change`, and the current contents of the per-rank
results file. Counters are `Int` because Python lets them go negative. -/
structure LoopState where
  roundsToTest : Int
  roundsToTrainEvaluate : Int
  globalEpoch : Int
  change : Int
  file : ResultsDict
deriving DecidableEq, Repr

/-- `Node.run` lines 434-447: record the communication and gradient
statistics under the 1-based iteration key (`hasattr` probes as `Option`). -/
def bookkeepDict (e : IterEnv) (i : Nat) (d0 : ResultsDict) : ResultsDict :=
  let d1 := setEntry d0 "total_bytes" (i + 1) e.totalBytes
  let d2 := match e.totalMeta with
            | some v => setEntry d1 "total_meta" (i + 1) v
            | none => d1
  let d3 := match e.totalData with
            | some v => setEntry d2 "total_data_per_n" (i + 1) v
            | none => d2
  let d4 := match e.gradMean with
            | some v => setEntry d3 "grad_mean" (i + 1) v
            | none => d3
  match e.gradStd with
  | some v => setEntry d4 "grad_std" (i + 1) v
  | none => d4

/-- `Node.run` lines 405-447: train, sharing step, optional optimizer reset,
read (iteration > 0) or initialize (iteration 0) the results record, then
record the statistics. -/
def iterBookkeep (c : NodeConf) (e : IterEnv) (i : Nat) (s : LoopState) :
    List Effect × ResultsDict :=
  ((if c.resetOptimizer then
      [Effect.train i, Effect.sharingStep i, Effect.resetOpt i]
    else [Effect.train i, Effect.sharingStep i]) ++
     (if i ≠ 0 then [Effect.readResults "r"] else []),
   bookkeepDict e i (if i ≠ 0 then s.file else initResults))

/-- `Node.run` lines 449-462: decrement the train-evaluate countdown; when it
reaches zero and train evaluation is not centralized, evaluate on the train
set, reset the countdown to `train_evaluate_after * change` and record the
loss. Returns the effects, the updated record and the new countdown. -/
def trainEvalStep (c : NodeConf) (e : IterEnv) (i : Nat) (d : ResultsDict)
    (s : LoopState) : List Effect × ResultsDict × Int :=
  if s.roundsToTrainEvaluate - 1 = 0 ∧ ¬c.centralizedTrainEval then
    ([.evalTrainLocal i],
     setEntry d "train_loss" (i + 1) e.trainLoss,
     c.trainEvaluateAfter * s.change)
  else ([], d, s.roundsToTrainEvaluate - 1)

/-- `Node.run` line 487-490: `change` doubles at the test evaluation where
`global_epoch` equals 49, else stays. -/
def changeUpd (s : LoopState) : Int :=
  if s.globalEpoch = 49 then s.change * 2 else s.change

/-- Record updates of the uid-0 helper branch (`Node.run` lines 472-476). -/
def helperDict (e : IterEnv) (i : Nat) (d : ResultsDict) : ResultsDict :=
  let d2 := setEntry (setEntry d "test_acc" (i + 1) e.testAcc)
              "test_loss" (i + 1) e.testLoss
  match e.helperTrainLoss with
  | some trl => setEntry d2 "train_loss" (i + 1) trl
  | none => d2

/-- Record updates of the local test-evaluation branch (lines 482-485). -/
def localTestDict (e : IterEnv) (i : Nat) (d : ResultsDict) : ResultsDict :=
  setEntry (setEntry d "test_acc" (i + 1) e.testAcc)
    "test_loss" (i + 1) e.testLoss

/-- `Node.run` lines 464-490: decrement the test countdown; when it reaches
zero (and the dataset supports testing) run the test block: centralized
evaluation through the star channel (helper at uid 0, send/receive handshake
elsewhere, asserting `sender == 0 and data == "finished"`), or local test
evaluation; then the `global_epoch`/`change` update. Returns the effects and
either the abort error or the updated record and the new
(roundsToTest, globalEpoch, change). -/
def testEvalStep (c : NodeConf) (e : IterEnv) (i : Nat) (d : ResultsDict)
    (s : LoopState) :
    List Effect × Except RunError (ResultsDict × Int × Int × Int) :=
  if c.datasetTesting ∧ s.roundsToTest - 1 = 0 then
    let res : List Effect × Except RunError ResultsDict :=
      if c.centralizedTestEval then
        if c.uid = 0 then ([.helperEval i], .ok (helperDict e i d))
        else if e.starMsg.sender = 0 ∧ e.starMsg.payload = .finished then
          ([Effect.starSend 0 .weights, Effect.starReceive e.starMsg], .ok d)
        else
          ([Effect.starSend 0 .weights, Effect.starReceive e.starMsg],
           .error .assertionFailed)
      else ([.evalTestLocal i], .ok (localTestDict e i d))
    match res with
    | (es, .error err) => (es, .error err)
    | (es, .ok d') =>
        (es, .ok (d', c.testAfter * s.change, s.globalEpoch + changeUpd s,
                  changeUpd s))
  else ([], .ok (d, s.roundsToTest - 1, s.globalEpoch, s.change))

/-- One full iteration of the round loop of `Node.run` (lines 404-495),
ending — when it does not abort — with the full rewrite of the per-rank
results file in mode `"w"` (lines 492-495). -/
def runIter (c : NodeConf) (e : IterEnv) (i : Nat) (s : LoopState) :
    List Effect × Except RunError LoopState :=
  let bk := iterBookkeep c e i s
  let te := trainEvalStep c e i bk.2 s
  match testEvalStep c e i te.2.1 s with
  | (es3, .error err) => (bk.1 ++ te.1 ++ es3, .error err)
  | (es3, .ok (d3, rtt, ge, ch)) =>
      (bk.1 ++ te.1 ++ es3 ++ [Effect.writeResults "w" d3],
       .ok { roundsToTest := rtt, roundsToTrainEvaluate := te.2.2,
             globalEpoch := ge, change := ch, file := d3 })

/-- The round loop, iterating `runIter` from iteration `i` for `fuel`
remaining iterations; aborts propagate with the trace so far. -/
def runLoop (c : NodeConf) (env : Nat → IterEnv) :
    Nat → Nat → LoopState → List Effect × Except RunError LoopState
  | _, 0, s => ([], .ok s)
  | i, fuel + 1, s =>
    match runIter c (env i) i s with
    | (es, .error err) => (es, .error err)
    | (es, .ok s') =>
        let rest := runLoop c env (i + 1) fuel s'
        (es ++ rest.1, rest.2)

/-- Loop state at entry of the round loop (`Node.run` lines 362, 373-375). -/
def initLoopState (c : NodeConf) : LoopState :=
  { roundsToTest := c.testAfter, roundsToTrainEvaluate := c.trainEvaluateAfter,
    globalEpoch := 1, change := 1, file := initResults }

/-- `Node.run` lines 360-372: connect main-channel neighbors, open the star
channel (`TCP(..., self.star.n_procs, ..., offset=self.star.n_procs)`) and
connect its neighbors. -/
def initEffects (c : NodeConf) : List Effect :=
  [.connectMain c.mainNeighbors,
   .openStar (starNProcs c.nProcs) (starNProcs c.nProcs),
   .connectStar (starNeighbors c.nProcs c.uid)]

/-- `Node.run` lines 496-505: optional shared-parameter-counter dump, then
disconnect of the main channel. The star channel is never disconnected. -/
def finalEffects (c : NodeConf) : List Effect :=
  (match c.sharedParamsCounter with
   | some l => [Effect.saveSharedParams l]
   | none => []) ++ [Effect.disconnectMain]

/-- `Node.run` in full: channel setup, the round loop, finalization, and the
final weight dump at line 507, which references the loop variable `iteration`
and therefore raises `NameError` when the loop never executed. -/
def nodeRun (c : NodeConf) (env : Nat → IterEnv) :
    List Effect × Except RunError Unit :=
  match runLoop c env 0 c.iterations (initLoopState c) with
  | (es, .error err) => (initEffects c ++ es, .error err)
  | (es, .ok _) =>
      if c.iterations = 0 then
        (initEffects c ++ es ++ finalEffects c, .error .nameError)
      else
        (initEffects c ++ es ++ finalEffects c ++
           [Effect.dumpWeights c.uid (c.iterations - 1)], .ok ())

/-- `Node.__init__` lines 583-586: compute threads per process as
`max(floor(total_threads / procs_per_machine), 1)` (Python `math.floor` of a
true division of non-negative machine integers is `Nat` division). -/
def threads_per_proc (totalThreads procsPerMachine : Nat) : Nat :=
  max (totalThreads / procsPerMachine) 1

/-- `Node.__init__` lines 578-610: normalize the two centralized-evaluation
flags with `== 1`, assert `not centralized_train_eval or
centralized_test_eval` (line 581) before anything else, then set the thread
budget, instantiate, and run. -/
def nodeInit (c : NodeConf) (env : Nat → IterEnv) (cteFlag ctevFlag : Int)
    (totalCpu procsPerMachine : Nat) : List Effect × Except RunError Unit :=
  if cteFlag = 1 ∧ ¬ctevFlag = 1 then ([], .error .assertionFailed)
  else
    let tpp := threads_per_proc totalCpu procsPerMachine
    let r := nodeRun { c with centralizedTrainEval := cteFlag == 1,
                              centralizedTestEval := ctevFlag == 1 } env
    (Effect.setNumThreads tpp :: r.1, r.2)

/-- State of a `Model` relevant to `count_params`
(`src/decentralizepy/models/Model.py`): the parameter tensors are abstracted
to their element counts paired with their `requires_grad` flag; the two cache
fields `_param_count_ot` / `_param_count_total` start as `None`. -/
structure PyModel where
  params : List (Nat × Bool)
  paramCountOT : Option Nat
  paramCountTotal : Option Nat
deriving DecidableEq, Repr

/-- A fresh model as left by `Model.__init__`: both cache fields `None`. -/
def mkModel (ps : List (Nat × Bool)) : PyModel :=
  { params := ps, paramCountOT := none, paramCountTotal := none }

/-- Python falsiness of a cache field: `not x` is true for `None` and `0`. -/
def pyFalsy (o : Option Nat) : Bool :=
  match o with
  | none => true
  | some n => n == 0

/-- `sum(p.numel() for p in self.parameters() if p.requires_grad)` resp. the
unfiltered sum. -/
def sumParams (ps : List (Nat × Bool)) (onlyTrainable : Bool) : Nat :=
  ((if onlyTrainable then ps.filter (fun p => p.2) else ps).map Prod.fst).sum

/-- `Model.count_params` (`Model.py` lines 24-48): per-flag cached sum with
Python falsiness as the recompute condition; returns the count and the model
state after the call. -/
def count_params (m : PyModel) (onlyTrainable : Bool) : Nat × PyModel :=
  if onlyTrainable then
    if pyFalsy m.paramCountOT then
      let c := sumParams m.params true
      (c, { m with paramCountOT := some c })
    else (m.paramCountOT.getD 0, m)
  else
    if pyFalsy m.paramCountTotal then
      let c := sumParams m.params false
      (c, { m with paramCountTotal := some c })
    else (m.paramCountTotal.getD 0, m)

/-- Operations that may hit a model between two `count_params` calls:
mutation of the parameter set, or another `count_params` call (with either
flag). -/
inductive ModelOp where
  | setParams (ps : List (Nat × Bool))
  | countParams (f : Bool)
deriving DecidableEq, Repr

/-- Effect of one operation on the model state. -/
def applyOp (m : PyModel) : ModelOp → PyModel
  | .setParams ps => { m with params := ps }
  | .countParams f => (count_params m f).2

/-- Effect of a sequence of operations on the model state. -/
def applyOps (ops : List ModelOp) (m : PyModel) : PyModel :=
  ops.foldl applyOp m

/-- The per-flag cache field read by `count_params`. -/
def cacheOf (m : PyModel) (onlyTrainable : Bool) : Option Nat :=
  if onlyTrainable then m.paramCountOT else m.paramCountTotal

/-- An operation keeps the parameter sum for flag `f` at zero: parameter
mutations must install a zero-sum parameter set; calls are unrestricted. -/
def zeroSumOp (f : Bool) : ModelOp → Prop
  | .setParams ps => sumParams ps f = 0
  | .countParams _ => True

/-- Effects of the restart-capable controller
(`eval/testingIFCA_restarts.py`, `__main__` loop): flag reset, spawn of the
whole process group with the seed the config carries at that point, join,
the `time.sleep(10)` pause, and the normal-stop exit. -/
inductive CtrlEffect where
  | resetFlag
  | spawnGroup (seed : Int)
  | joinAll
  | sleepPause
  | normalStop
deriving DecidableEq, Repr

/-- The restart loop of `eval/testingIFCA_restarts.py` lines 56-121. Each
entry of `outcomes` is the value of `return_dict["early_stop"]` the spawned
group leaves behind; the loop runs until a group leaves it `False`. Returns
the effect trace and, when it terminates within the modelled outcomes, the
seed of the final (successful) spawn; `none` means every modelled outcome
requested a restart and the loop is still running. -/
def restartLoop (seed : Int) : List Bool → List CtrlEffect × Option Int
  | [] => ([], none)
  | b :: rest =>
      let es : List CtrlEffect := [.resetFlag, .spawnGroup seed, .joinAll]
      if b then
        let r := restartLoop (seed + 123456) rest
        (es ++ [CtrlEffect.sleepPause] ++ r.1, r.2)
      else (es ++ [CtrlEffect.normalStop], some seed)

/-- Seeds of the successive group spawns in a controller trace. -/
def spawnSeeds (es : List CtrlEffect) : List Int :=
  es.filterMap (fun e => match e with
    | .spawnGroup s => some s
    | _ => none)

/-- `true` iff every `spawnGroup` in the trace is immediately preceded by a
`resetFlag` (the cross-process flag is reset to false before spawning). -/
def resetBeforeSpawn : List CtrlEffect → Bool
  | [] => true
  | .resetFlag :: .spawnGroup _ :: rest => resetBeforeSpawn rest
  | .spawnGroup _ :: _ => false
  | _ :: rest => resetBeforeSpawn rest

/-- The results-file writes occurring in a trace, with their file mode. -/
def writesOf (es : List Effect) : List (String × ResultsDict) :=
  es.filterMap (fun e => match e with
    | .writeResults m d => some (m, d)
    | _ => none)

/-- Iteration numbers at which a test evaluation is performed (locally or by
the uid-0 helper). -/
def testEvalRounds (es : List Effect) : List Nat :=
  es.filterMap (fun e => match e with
    | .evalTestLocal i => some i
    | .helperEval i => some i
    | _ => none)

/-- Differences between consecutive elements of a list of round numbers. -/
def gapList : List Nat → List Nat
  | a :: b :: rest => (b - a) :: gapList (b :: rest)
  | _ => []

/-- Effects belonging to the finalization phase of `Node.run`. -/
def isFinalEffect : Effect → Bool
  | .saveSharedParams _ => true
  | .disconnectMain => true
  | .disconnectStar => true
  | .dumpWeights _ _ => true
  | _ => false

/-- Effects that the round-loop body can emit. -/
def isRoundEffect : Effect → Bool
  | .train _ => true
  | .sharingStep _ => true
  | .resetOpt _ => true
  | .readResults _ => true
  | .evalTrainLocal _ => true
  | .evalTestLocal _ => true
  | .helperEval _ => true
  | .starSend _ _ => true
  | .starReceive _ => true
  | .writeResults _ _ => true
  | _ => false

/-- Projection of a successful loop result (used to name concrete states). -/
def okState : Except RunError LoopState → LoopState
  | .ok s => s
  | .error _ => { roundsToTest := 0, roundsToTrainEvaluate := 0,
                  globalEpoch := 0, change := 0, file := [] }

/-- A benign environment: zero statistics, no optional counters, and a
correct acknowledgment from uid 0 on the star channel. -/
def env0 : IterEnv :=
  { totalBytes := 0, totalMeta := none, totalData := none, gradMean := none,
    gradStd := none, trainLoss := 0, testAcc := 0, testLoss := 0,
    helperTrainLoss := none, starMsg := { sender := 0, payload := .finished } }

/-- An environment whose star-channel acknowledgment comes from uid 2. -/
def envBadSender : IterEnv :=
  { env0 with starMsg := { sender := 2, payload := .finished } }

/-- Concrete node configuration: uid 1 of 2, one iteration, test far away. -/
def cfgBase : NodeConf :=
  { uid := 1, nProcs := 2, iterations := 1, testAfter := 5,
    trainEvaluateAfter := 1000, resetOptimizer := false,
    centralizedTrainEval := false, centralizedTestEval := true,
    datasetTesting := true, sharedParamsCounter := none, mainNeighbors := [0] }

/-- Configuration exercising the evaluation schedule: `test_after = 1`,
52 iterations, local test evaluation. -/
def cfgSched : NodeConf :=
  { cfgBase with iterations := 52, testAfter := 1, centralizedTestEval := false }

/-- `cfgBase` with zero iterations. -/
def cfgZeroIter : NodeConf := { cfgBase with iterations := 0 }

/-- A loop state one round away from a test evaluation. -/
def sHand : LoopState :=
  { roundsToTest := 1, roundsToTrainEvaluate := 1000, globalEpoch := 1,
    change := 1, file := initResults }

/-! Lemmas about the results record. -/

theorem dictKeys_setEntry (d : ResultsDict) (k : String) (i : Nat) (v : Int) :
    dictKeys (setEntry d k i v) = dictKeys d := by
  simp only [dictKeys, setEntry, List.map_map]
  congr 1
  funext p
  by_cases h : p.1 = k <;> simp [h]

theorem getEntry_setEntry_ne (d : ResultsDict) (k k' : String) (i : Nat)
    (v : Int) (h : k ≠ k') : getEntry (setEntry d k' i v) k = getEntry d k := by
  induction d with
  | nil => simp [setEntry, getEntry]
  | cons p rest ih =>
    by_cases h1 : p.1 = k'
    · have hk : p.1 ≠ k := fun hh => h (hh ▸ h1)
      simp [setEntry, getEntry, h1, hk, Ne.symm h] at ih ⊢
      exact ih
    · by_cases hk : p.1 = k
      · simp [setEntry, getEntry, h1, hk, h]
      · simp [setEntry, getEntry, h1, hk] at ih ⊢
        exact ih

theorem getEntry_setEntry_self (d : ResultsDict) (k : String) (i : Nat)
    (v : Int) (h : k ∈ dictKeys d) :
    getEntry (setEntry d k i v) k = setIter (getEntry d k) i v := by
  induction d with
  | nil => simp [dictKeys] at h
  | cons p rest ih =>
    by_cases h1 : p.1 = k
    · simp [setEntry, getEntry, h1]
    · have hmem : k ∈ dictKeys rest := by
        rcases (by simpa [dictKeys] using h) with h2 | h2
        · exact absurd h2.symm h1
        · simpa [dictKeys] using h2
      simp [setEntry, getEntry, h1] at ih ⊢
      exact ih hmem

theorem hasIter_setIter (m : IterMap) (i : Nat) (v : Int) :
    hasIter (setIter m i v) i = true := by
  unfold setIter
  by_cases h : m.any (fun p => p.1 == i)
  · rw [if_pos h]
    rcases List.any_eq_true.mp h with ⟨p, hp, hpe⟩
    refine List.any_eq_true.mpr ⟨(i, v), ?_, by simp⟩
    exact List.mem_map.mpr ⟨p, hp, by simp [hpe]⟩
  · rw [if_neg h]
    exact List.any_eq_true.mpr ⟨(i, v), by simp, by simp⟩

theorem dictKeys_bookkeepDict (e : IterEnv) (i : Nat) (d0 : ResultsDict) :
    dictKeys (bookkeepDict e i d0) = dictKeys d0 := by
  unfold bookkeepDict
  rcases e.totalMeta <;> rcases e.totalData <;> rcases e.gradMean <;>
    rcases e.gradStd <;> simp [dictKeys_setEntry]

theorem getEntry_bookkeepDict (e : IterEnv) (i : Nat) (d0 : ResultsDict)
    (h : "total_bytes" ∈ dictKeys d0) :
    getEntry (bookkeepDict e i d0) "total_bytes" =
      setIter (getEntry d0 "total_bytes") (i + 1) e.totalBytes := by
  unfold bookkeepDict
  rcases e.totalMeta <;> rcases e.totalData <;> rcases e.gradMean <;>
    rcases e.gradStd <;>
    simp [getEntry_setEntry_ne _ _ _ _ _ (by decide : "total_bytes" ≠ "total_meta"),
      getEntry_setEntry_ne _ _ _ _ _ (by decide : "total_bytes" ≠ "total_data_per_n"),
      getEntry_setEntry_ne _ _ _ _ _ (by decide : "total_bytes" ≠ "grad_mean"),
      getEntry_setEntry_ne _ _ _ _ _ (by decide : "total_bytes" ≠ "grad_std"),
      getEntry_setEntry_self _ _ _ _ h]

theorem dictKeys_helperDict (e : IterEnv) (i : Nat) (d : ResultsDict) :
    dictKeys (helperDict e i d) = dictKeys d := by
  unfold helperDict
  rcases e.helperTrainLoss <;> simp [dictKeys_setEntry]

theorem dictKeys_localTestDict (e : IterEnv) (i : Nat) (d : ResultsDict) :
    dictKeys (localTestDict e i d) = dictKeys d := by
  simp [localTestDict, dictKeys_setEntry]

theorem getEntry_helperDict_total_bytes (e : IterEnv) (i : Nat)
    (d : ResultsDict) :
    getEntry (helperDict e i d) "total_bytes" = getEntry d "total_bytes" := by
  unfold helperDict
  rcases e.helperTrainLoss <;>
    simp [getEntry_setEntry_ne _ _ _ _ _ (by decide : "total_bytes" ≠ "test_acc"),
      getEntry_setEntry_ne _ _ _ _ _ (by decide : "total_bytes" ≠ "test_loss"),
      getEntry_setEntry_ne _ _ _ _ _ (by decide : "total_bytes" ≠ "train_loss")]

theorem getEntry_localTestDict_total_bytes (e : IterEnv) (i : Nat)
    (d : ResultsDict) :
    getEntry (localTestDict e i d) "total_bytes" = getEntry d "total_bytes" := by
  simp [localTestDict,
    getEntry_setEntry_ne _ _ _ _ _ (by decide : "total_bytes" ≠ "test_acc"),
    getEntry_setEntry_ne _ _ _ _ _ (by decide : "total_bytes" ≠ "test_loss")]

/-! Stage characterization lemmas for the round loop. -/

theorem iterBookkeep_effects (c : NodeConf) (e : IterEnv) (i : Nat)
    (s : LoopState) :
    ∀ x ∈ (iterBookkeep c e i s).1,
      x = Effect.train i ∨ x = Effect.sharingStep i ∨ x = Effect.resetOpt i ∨
      x = Effect.readResults "r" := by
  intro x hx
  unfold iterBookkeep at hx
  by_cases hr : c.resetOptimizer <;> by_cases hi : i ≠ 0 <;>
    simp [hr, hi] at hx <;> tauto

theorem trainEvalStep_effects (c : NodeConf) (e : IterEnv) (i : Nat)
    (d : ResultsDict) (s : LoopState) :
    ∀ x ∈ (trainEvalStep c e i d s).1, x = Effect.evalTrainLocal i := by
  intro x hx
  unfold trainEvalStep at hx
  by_cases ht : (s.roundsToTrainEvaluate - 1 = 0 ∧ c.centralizedTrainEval = false) <;>
    simp [ht] at hx
  exact hx

theorem testEvalStep_effects (c : NodeConf) (e : IterEnv) (i : Nat)
    (d : ResultsDict) (s : LoopState) :
    ∀ x ∈ (testEvalStep c e i d s).1,
      x = Effect.helperEval i ∨ x = Effect.starSend 0 .weights ∨
      x = Effect.starReceive e.starMsg ∨ x = Effect.evalTestLocal i := by
  intro x hx
  unfold testEvalStep at hx
  by_cases hd : (c.datasetTesting = true ∧ s.roundsToTest - 1 = 0) <;>
    by_cases hc : c.centralizedTestEval = true <;>
    by_cases hu : c.uid = 0 <;>
    by_cases hm : (e.starMsg.sender = 0 ∧ e.starMsg.payload = Payload.finished) <;>
    simp [hd, hc, hu, hm] at hx <;> tauto

theorem testEvalStep_handshake (c : NodeConf) (e : IterEnv) (i : Nat)
    (d : ResultsDict) (s : LoopState) (huid : c.uid ≠ 0)
    (hcte : c.centralizedTestEval = true) (htest : c.datasetTesting = true)
    (hrtt : s.roundsToTest = 1) :
    testEvalStep c e i d s =
      ([Effect.starSend 0 .weights, Effect.starReceive e.starMsg],
       if e.starMsg.sender = 0 ∧ e.starMsg.payload = .finished then
         .ok (d, c.testAfter * s.change, s.globalEpoch + changeUpd s, changeUpd s)
       else .error .assertionFailed) := by
  have hd : (c.datasetTesting = true ∧ s.roundsToTest - 1 = 0) :=
    ⟨htest, by omega⟩
  by_cases hm : (e.starMsg.sender = 0 ∧ e.starMsg.payload = Payload.finished) <;>
    simp [testEvalStep, hd, hcte, huid, hm]

theorem runIter_ok_shape (c : NodeConf) (e : IterEnv) (i : Nat) (s : LoopState)
    (es3 : List Effect) (d3 : ResultsDict) (rtt ge ch : Int)
    (h3 : testEvalStep c e i (trainEvalStep c e i (iterBookkeep c e i s).2 s).2.1 s
            = (es3, .ok (d3, rtt, ge, ch))) :
    runIter c e i s =
      ((iterBookkeep c e i s).1 ++
         (trainEvalStep c e i (iterBookkeep c e i s).2 s).1 ++ es3 ++
         [Effect.writeResults "w" d3],
       .ok { roundsToTest := rtt,
             roundsToTrainEvaluate :=
               (trainEvalStep c e i (iterBookkeep c e i s).2 s).2.2,
             globalEpoch := ge, change := ch, file := d3 }) := by
  simp only [runIter, h3]

theorem runIter_error_shape (c : NodeConf) (e : IterEnv) (i : Nat)
    (s : LoopState) (es3 : List Effect) (err : RunError)
    (h3 : testEvalStep c e i (trainEvalStep c e i (iterBookkeep c e i s).2 s).2.1 s
            = (es3, .error err)) :
    runIter c e i s =
      ((iterBookkeep c e i s).1 ++
         (trainEvalStep c e i (iterBookkeep c e i s).2 s).1 ++ es3,
       .error err) := by
  simp only [runIter, h3]

theorem runIter_round_effects (c : NodeConf) (e : IterEnv) (i : Nat)
    (s : LoopState) : ∀ x ∈ (runIter c e i s).1, isRoundEffect x = true := by
  intro x hx
  rcases h3 : testEvalStep c e i (trainEvalStep c e i (iterBookkeep c e i s).2 s).2.1 s
    with ⟨es3, r⟩
  have hes3 : (testEvalStep c e i
      (trainEvalStep c e i (iterBookkeep c e i s).2 s).2.1 s).1 = es3 := by
    rw [h3]
  rcases r with err | ⟨d3, rtt, ge, ch⟩
  · rw [runIter_error_shape c e i s es3 err h3] at hx
    simp only [List.mem_append] at hx
    rcases hx with (h | h) | h
    · rcases iterBookkeep_effects c e i s x h with h | h | h | h <;> subst h <;> rfl
    · have h2 := trainEvalStep_effects c e i _ s x h
      subst h2; rfl
    · rcases testEvalStep_effects c e i _ s x (hes3 ▸ h) with h | h | h | h <;>
        subst h <;> rfl
  · rw [runIter_ok_shape c e i s es3 d3 rtt ge ch h3] at hx
    simp only [List.mem_append, List.mem_singleton] at hx
    rcases hx with ((h | h) | h) | h
    · rcases iterBookkeep_effects c e i s x h with h | h | h | h <;> subst h <;> rfl
    · have h2 := trainEvalStep_effects c e i _ s x h
      subst h2; rfl
    · rcases testEvalStep_effects c e i _ s x (hes3 ▸ h) with h | h | h | h <;>
        subst h <;> rfl
    · subst h; rfl

theorem runLoop_round_effects (c : NodeConf) (env : Nat → IterEnv)
    (i fuel : Nat) (s : LoopState) :
    ∀ x ∈ (runLoop c env i fuel s).1, isRoundEffect x = true := by
  induction fuel generalizing i s with
  | zero => intro x hx; simp [runLoop] at hx
  | succ n ih =>
    intro x hx
    rcases h1 : runIter c (env i) i s with ⟨es, r⟩
    rcases r with err | s'
    · simp only [runLoop, h1] at hx
      exact runIter_round_effects c (env i) i s x (by rw [h1]; exact hx)
    · simp only [runLoop, h1] at hx
      rcases List.mem_append.mp hx with h | h
      · exact runIter_round_effects c (env i) i s x (by rw [h1]; exact h)
      · exact ih (i + 1) s' x h

theorem trainEvalStep_dict (c : NodeConf) (e : IterEnv) (i : Nat)
    (d : ResultsDict) (s : LoopState) :
    dictKeys (trainEvalStep c e i d s).2.1 = dictKeys d ∧
    (hasIter (getEntry d "total_bytes") (i + 1) = true →
      hasIter (getEntry (trainEvalStep c e i d s).2.1 "total_bytes") (i + 1) = true) := by
  by_cases ht : (s.roundsToTrainEvaluate - 1 = 0 ∧ c.centralizedTrainEval = false) <;>
    simp [trainEvalStep, ht, dictKeys_setEntry,
      getEntry_setEntry_ne _ _ _ _ _ (by decide : "total_bytes" ≠ "train_loss")]

theorem testEvalStep_ok_dict (c : NodeConf) (e : IterEnv) (i : Nat)
    (d : ResultsDict) (s : LoopState) (es3 : List Effect) (d3 : ResultsDict)
    (rtt ge ch : Int) (h3 : testEvalStep c e i d s = (es3, .ok (d3, rtt, ge, ch))) :
    dictKeys d3 = dictKeys d ∧
    (hasIter (getEntry d "total_bytes") (i + 1) = true →
      hasIter (getEntry d3 "total_bytes") (i + 1) = true) := by
  by_cases hd : (c.datasetTesting = true ∧ s.roundsToTest - 1 = 0)
  · by_cases hc : c.centralizedTestEval = true
    · by_cases hu : c.uid = 0
      · simp [testEvalStep, hd, hc, hu] at h3
        obtain ⟨-, hdd, -⟩ := h3
        subst hdd
        simp [dictKeys_helperDict, getEntry_helperDict_total_bytes]
      · by_cases hm : (e.starMsg.sender = 0 ∧ e.starMsg.payload = Payload.finished)
        · simp [testEvalStep, hd, hc, hu, hm] at h3
          obtain ⟨-, hdd, -⟩ := h3
          subst hdd
          simp
        · simp [testEvalStep, hd, hc, hu, hm] at h3
    · simp [testEvalStep, hd, hc] at h3
      obtain ⟨-, hdd, -⟩ := h3
      subst hdd
      simp [dictKeys_localTestDict, getEntry_localTestDict_total_bytes]
  · simp [testEvalStep, hd] at h3
    obtain ⟨-, hdd, -⟩ := h3
    subst hdd
    simp

theorem iterBookkeep_dict (c : NodeConf) (e : IterEnv) (i : Nat) (s : LoopState)
    (hkeys : "total_bytes" ∈ dictKeys s.file) :
    dictKeys (iterBookkeep c e i s).2 =
      (if i ≠ 0 then dictKeys s.file else dictKeys initResults) ∧
    hasIter (getEntry (iterBookkeep c e i s).2 "total_bytes") (i + 1) = true := by
  by_cases hi : i = 0
  · constructor
    · simp [iterBookkeep, hi, dictKeys_bookkeepDict]
    · have h0 : (iterBookkeep c e i s).2 = bookkeepDict e i initResults := by
        simp [iterBookkeep, hi]
      rw [h0, getEntry_bookkeepDict _ _ _ (by decide)]
      exact hasIter_setIter _ _ _
  · constructor
    · simp [iterBookkeep, hi, dictKeys_bookkeepDict]
    · have h0 : (iterBookkeep c e i s).2 = bookkeepDict e i s.file := by
        simp [iterBookkeep, hi]
      rw [h0, getEntry_bookkeepDict _ _ _ hkeys]
      exact hasIter_setIter _ _ _

theorem writesOf_iterBookkeep (c : NodeConf) (e : IterEnv) (i : Nat)
    (s : LoopState) : writesOf (iterBookkeep c e i s).1 = [] := by
  rw [writesOf, List.filterMap_eq_nil_iff]
  intro a ha
  rcases iterBookkeep_effects c e i s a ha with h | h | h | h <;> subst h <;> rfl

theorem writesOf_trainEvalStep (c : NodeConf) (e : IterEnv) (i : Nat)
    (d : ResultsDict) (s : LoopState) :
    writesOf (trainEvalStep c e i d s).1 = [] := by
  rw [writesOf, List.filterMap_eq_nil_iff]
  intro a ha
  have h := trainEvalStep_effects c e i d s a ha
  subst h; rfl

theorem writesOf_testEvalStep (c : NodeConf) (e : IterEnv) (i : Nat)
    (d : ResultsDict) (s : LoopState) :
    writesOf (testEvalStep c e i d s).1 = [] := by
  rw [writesOf, List.filterMap_eq_nil_iff]
  intro a ha
  rcases testEvalStep_effects c e i d s a ha with h | h | h | h <;> subst h <;> rfl

theorem writesOf_append (l1 l2 : List Effect) :
    writesOf (l1 ++ l2) = writesOf l1 ++ writesOf l2 := by
  simp [writesOf, List.filterMap_append]

theorem nodeRun_error_shape (c : NodeConf) (env : Nat → IterEnv)
    (es : List Effect) (err : RunError)
    (hl : runLoop c env 0 c.iterations (initLoopState c) = (es, .error err)) :
    nodeRun c env = (initEffects c ++ es, .error err) := by
  simp only [nodeRun, hl]

theorem nodeRun_ok_shape (c : NodeConf) (env : Nat → IterEnv)
    (es : List Effect) (s' : LoopState) (hi : c.iterations ≠ 0)
    (hl : runLoop c env 0 c.iterations (initLoopState c) = (es, .ok s')) :
    nodeRun c env =
      (initEffects c ++ es ++ finalEffects c ++
         [Effect.dumpWeights c.uid (c.iterations - 1)], .ok ()) := by
  simp only [nodeRun, hl, hi, if_neg, ite_false]

theorem nodeRun_zero_shape (c : NodeConf) (env : Nat → IterEnv)
    (hi : c.iterations = 0) :
    nodeRun c env =
      (initEffects c ++ finalEffects c, .error .nameError) := by
  have hl : runLoop c env 0 0 (initLoopState c) =
      ([], .ok (initLoopState c)) := rfl
  simp only [nodeRun, hi, hl, List.append_nil]
  simp

/-! Claim theorems. -/

/-- C1: during centralized test evaluation, a node with uid ≠ 0, on a test
round, sends its current weights to uid 0 over the star channel and then
blocks on a receive; it proceeds to the next round exactly when the received
message has sender 0 and payload `"finished"`, and any other message aborts
the round with an assertion failure. -/
theorem centralized_eval_handshake (c : NodeConf) (e : IterEnv) (i : Nat)
    (s : LoopState) (huid : c.uid ≠ 0) (hcte : c.centralizedTestEval = true)
    (htest : c.datasetTesting = true) (hrtt : s.roundsToTest = 1) :
    (∃ pre post, (runIter c e i s).1 =
        pre ++ [Effect.starSend 0 .weights, Effect.starReceive e.starMsg] ++ post) ∧
    ((∃ s', (runIter c e i s).2 = .ok s') ↔
        (e.starMsg.sender = 0 ∧ e.starMsg.payload = .finished)) ∧
    (¬(e.starMsg.sender = 0 ∧ e.starMsg.payload = .finished) →
        (runIter c e i s).2 = .error .assertionFailed) := by
  have hts := testEvalStep_handshake c e i
      (trainEvalStep c e i (iterBookkeep c e i s).2 s).2.1 s huid hcte htest hrtt
  by_cases hm : (e.starMsg.sender = 0 ∧ e.starMsg.payload = Payload.finished)
  · rw [if_pos hm] at hts
    have hsh := runIter_ok_shape c e i s _ _ _ _ _ hts
    refine ⟨⟨(iterBookkeep c e i s).1 ++
              (trainEvalStep c e i (iterBookkeep c e i s).2 s).1,
            [Effect.writeResults "w"
              (trainEvalStep c e i (iterBookkeep c e i s).2 s).2.1], ?_⟩,
           ⟨fun _ => hm, fun _ => ⟨_, by rw [hsh]⟩⟩,
           fun hcon => absurd hm hcon⟩
    rw [hsh]
  · rw [if_neg hm] at hts
    have hsh := runIter_error_shape c e i s _ _ hts
    refine ⟨⟨(iterBookkeep c e i s).1 ++
              (trainEvalStep c e i (iterBookkeep c e i s).2 s).1, [], ?_⟩,
           ⟨?_, fun h => absurd h hm⟩, fun _ => by simp [hsh]⟩
    · rw [hsh]
      simp
    · rintro ⟨s', hs'⟩
      rw [hsh] at hs'
      simp at hs'

/-- Witness for C1 at a concrete configuration: uid 1, test round, correct
acknowledgment from uid 0. -/
theorem centralized_eval_handshake_witness :
    (∃ pre post, (runIter cfgBase env0 0 sHand).1 =
        pre ++ [Effect.starSend 0 .weights, Effect.starReceive env0.starMsg] ++ post) ∧
    ((∃ s', (runIter cfgBase env0 0 sHand).2 = .ok s') ↔
        (env0.starMsg.sender = 0 ∧ env0.starMsg.payload = .finished)) ∧
    (¬(env0.starMsg.sender = 0 ∧ env0.starMsg.payload = .finished) →
        (runIter cfgBase env0 0 sHand).2 = .error .assertionFailed) :=
  centralized_eval_handshake cfgBase env0 0 sHand (by decide) rfl rfl rfl

/-- C2: a node constructed with `centralized_train_eval` enabled (flag 1) and
`centralized_test_eval` disabled fails the construction-time assertion before
any effect — in particular before any channel is opened or any network
activity occurs. -/
theorem config_conflict_fails_fast (c : NodeConf) (env : Nat → IterEnv)
    (cte ctev : Int) (tc ppm : Nat) (h1 : cte = 1) (h2 : ctev ≠ 1) :
    nodeInit c env cte ctev tc ppm = ([], .error .assertionFailed) ∧
    ∀ x : Effect, x ∉ (nodeInit c env cte ctev tc ppm).1 := by
  have h : nodeInit c env cte ctev tc ppm = ([], .error .assertionFailed) := by
    simp [nodeInit, h1, h2]
  exact ⟨h, fun x hx => by rw [h] at hx; simp at hx⟩

/-- Witness for C2 at concrete flag values 1 and 0. -/
theorem config_conflict_fails_fast_witness :
    nodeInit cfgBase (fun _ => env0) 1 0 8 2 = ([], .error .assertionFailed) ∧
    ∀ x : Effect, x ∉ (nodeInit cfgBase (fun _ => env0) 1 0 8 2).1 :=
  config_conflict_fails_fast cfgBase (fun _ => env0) 1 0 8 2 rfl (by decide)

/-- C3: the controller of the restart-capable variant resets the shared
early-stop flag to false immediately before every spawn of the process
group; when the flag is left true it pauses, adds the fixed constant 123456
to the seed and respawns the whole group, and when the flag is left false it
terminates normally — in particular with outcomes `[true, false]` the group
is spawned exactly twice, the second time with the seed incremented by
123456, and the controller stops normally. -/
theorem restart_loop_behavior :
    (∀ (seed : Int) (outcomes : List Bool),
       resetBeforeSpawn (restartLoop seed outcomes).1 = true) ∧
    (∀ seed : Int,
       spawnSeeds (restartLoop seed [true, false]).1 = [seed, seed + 123456] ∧
       (restartLoop seed [true, false]).2 = some (seed + 123456) ∧
       (restartLoop seed [true, false]).1 =
         [.resetFlag, .spawnGroup seed, .joinAll, .sleepPause,
          .resetFlag, .spawnGroup (seed + 123456), .joinAll, .normalStop]) := by
  constructor
  · intro seed outcomes
    induction outcomes generalizing seed with
    | nil => simp [restartLoop, resetBeforeSpawn]
    | cons b rest ih =>
      by_cases hb : b
      · simp [restartLoop, hb, resetBeforeSpawn, ih]
      · simp [restartLoop, hb, resetBeforeSpawn]
  · intro seed
    refine ⟨by simp [restartLoop, spawnSeeds], by simp [restartLoop], by simp [restartLoop]⟩

/-- C4: every round that completes rewrites the per-rank results file exactly
once, in write mode `"w"` (a full rewrite, never append), as its final
action; `total_bytes` receives an entry keyed by the 1-based iteration number
on every round; and on the first round the record is initialized with exactly
the keys `train_loss`, `test_loss`, `test_acc`, `total_bytes`, `total_meta`,
`total_data_per_n`, `grad_mean`, `grad_std`. -/
theorem results_file_rewrite (c : NodeConf) (e : IterEnv) (i : Nat)
    (s s' : LoopState) (hkeys : "total_bytes" ∈ dictKeys s.file)
    (hok : (runIter c e i s).2 = .ok s') :
    writesOf (runIter c e i s).1 = [("w", s'.file)] ∧
    (runIter c e i s).1.getLast? = some (.writeResults "w" s'.file) ∧
    hasIter (getEntry s'.file "total_bytes") (i + 1) = true ∧
    dictKeys initResults = ["train_loss", "test_loss", "test_acc", "total_bytes",
      "total_meta", "total_data_per_n", "grad_mean", "grad_std"] ∧
    (i = 0 → dictKeys s'.file = dictKeys initResults) := by
  rcases h3 : testEvalStep c e i (trainEvalStep c e i (iterBookkeep c e i s).2 s).2.1 s
    with ⟨es3, r⟩
  rcases r with err | ⟨d3, rtt, ge, ch⟩
  · rw [runIter_error_shape c e i s es3 err h3] at hok
    simp at hok
  · have hsh := runIter_ok_shape c e i s es3 d3 rtt ge ch h3
    rw [hsh] at hok
    simp only [Except.ok.injEq] at hok
    subst hok
    have hw3 : writesOf es3 = [] := by
      have h := writesOf_testEvalStep c e i
        (trainEvalStep c e i (iterBookkeep c e i s).2 s).2.1 s
      rw [h3] at h
      exact h
    refine ⟨?_, ?_, ?_, by decide, ?_⟩
    · rw [hsh, writesOf_append, writesOf_append, writesOf_append,
        writesOf_iterBookkeep, writesOf_trainEvalStep, hw3]
      rfl
    · rw [hsh]
      simp
    · have hb := (iterBookkeep_dict c e i s hkeys).2
      have ht := (trainEvalStep_dict c e i (iterBookkeep c e i s).2 s).2 hb
      exact (testEvalStep_ok_dict c e i _ s es3 d3 rtt ge ch h3).2 ht
    · intro hi0
      have h1 := (testEvalStep_ok_dict c e i _ s es3 d3 rtt ge ch h3).1
      have h2 := (trainEvalStep_dict c e i (iterBookkeep c e i s).2 s).1
      have h4 := (iterBookkeep_dict c e i s hkeys).1
      subst hi0
      simp only [ne_eq, not_true_eq_false, if_false, ite_false] at h4
      show dictKeys d3 = dictKeys initResults
      rw [h1, h2, h4]

/-- Witness for C4: the first round of a concrete configuration. -/
theorem results_file_rewrite_witness :
    writesOf (runIter cfgBase env0 0 (initLoopState cfgBase)).1 =
      [("w", (okState (runIter cfgBase env0 0 (initLoopState cfgBase)).2).file)] ∧
    (runIter cfgBase env0 0 (initLoopState cfgBase)).1.getLast? =
      some (.writeResults "w"
        (okState (runIter cfgBase env0 0 (initLoopState cfgBase)).2).file) ∧
    hasIter (getEntry
      (okState (runIter cfgBase env0 0 (initLoopState cfgBase)).2).file
      "total_bytes") (0 + 1) = true ∧
    dictKeys initResults = ["train_loss", "test_loss", "test_acc", "total_bytes",
      "total_meta", "total_data_per_n", "grad_mean", "grad_std"] ∧
    (0 = 0 → dictKeys
      (okState (runIter cfgBase env0 0 (initLoopState cfgBase)).2).file =
      dictKeys initResults) :=
  results_file_rewrite cfgBase env0 0 (initLoopState cfgBase)
    (okState (runIter cfgBase env0 0 (initLoopState cfgBase)).2)
    (by decide) rfl

/-- Counterexample for C5 as stated: a run that completes normally
disconnects the main channel but never the star/evaluation channel, so "both
channels are disconnected" fails on the code. -/
theorem star_never_disconnected_cex :
    (nodeRun cfgBase (fun _ => env0)).2 = .ok () ∧
    Effect.disconnectMain ∈ (nodeRun cfgBase (fun _ => env0)).1 ∧
    Effect.disconnectStar ∉ (nodeRun cfgBase (fun _ => env0)).1 :=
  ⟨rfl, by decide, by decide⟩

/-- C5 amended: when the round loop exits and the process completes
normally, the main communication channel is disconnected and the final
weights are persisted, but the star/evaluation channel is never
disconnected. -/
theorem finalization_behavior (c : NodeConf) (env : Nat → IterEnv)
    (hok : (nodeRun c env).2 = .ok ()) :
    Effect.disconnectMain ∈ (nodeRun c env).1 ∧
    Effect.dumpWeights c.uid (c.iterations - 1) ∈ (nodeRun c env).1 ∧
    Effect.disconnectStar ∉ (nodeRun c env).1 := by
  rcases hl : runLoop c env 0 c.iterations (initLoopState c) with ⟨es, r⟩
  rcases r with err | s'
  · rw [nodeRun_error_shape c env es err hl] at hok
    simp at hok
  · by_cases hi : c.iterations = 0
    · rw [nodeRun_zero_shape c env hi] at hok
      simp at hok
    · have hsh := nodeRun_ok_shape c env es s' hi hl
      rw [hsh]
      refine ⟨?_, by simp, ?_⟩
      · rcases hc : c.sharedParamsCounter with _ | l <;>
          simp [finalEffects, hc]
      · intro hmem
        simp only [List.mem_append, List.mem_singleton] at hmem
        rcases hmem with ((h | h) | h) | h
        · simp [initEffects] at h
        · have h2 := runLoop_round_effects c env 0 c.iterations
            (initLoopState c) Effect.disconnectStar (by rw [hl]; exact h)
          simp [isRoundEffect] at h2
        · rcases hc : c.sharedParamsCounter with _ | l <;>
            simp [finalEffects, hc] at h
        · simp at h

/-- Witness for C5's amended theorem at a concrete completed run. -/
theorem finalization_behavior_witness :
    Effect.disconnectMain ∈ (nodeRun cfgBase (fun _ => env0)).1 ∧
    Effect.dumpWeights cfgBase.uid (cfgBase.iterations - 1) ∈
      (nodeRun cfgBase (fun _ => env0)).1 ∧
    Effect.disconnectStar ∉ (nodeRun cfgBase (fun _ => env0)).1 :=
  finalization_behavior cfgBase (fun _ => env0) rfl

/-- Counterexample for C10 as stated: with zero iterations the run aborts
with the `NameError` and the main channel is disconnected, but the star
channel is not — "the channels are still disconnected" fails on the code. -/
theorem zero_iterations_cex :
    nodeRun cfgZeroIter (fun _ => env0) =
      ([.connectMain [0], .openStar 2 2, .connectStar [0], .disconnectMain],
       .error .nameError) ∧
    Effect.disconnectStar ∉ (nodeRun cfgZeroIter (fun _ => env0)).1 :=
  ⟨rfl, by decide⟩

/-- C10 amended: `Node.run` completes normally only when `iterations ≥ 1`;
with `iterations = 0` the loop body never executes, the main channel is
still disconnected (the star channel never is), and the final weight dump
fails with the undefined-loop-variable `NameError`, so no weight file is
written. -/
theorem zero_iterations_behavior :
    (∀ (c : NodeConf) (env : Nat → IterEnv),
       (nodeRun c env).2 = .ok () → 1 ≤ c.iterations) ∧
    (∀ (c : NodeConf) (env : Nat → IterEnv), c.iterations = 0 →
       (nodeRun c env).2 = .error .nameError ∧
       (∀ j, Effect.train j ∉ (nodeRun c env).1) ∧
       Effect.disconnectMain ∈ (nodeRun c env).1 ∧
       Effect.disconnectStar ∉ (nodeRun c env).1 ∧
       (∀ u j, Effect.dumpWeights u j ∉ (nodeRun c env).1)) := by
  constructor
  · intro c env hok
    rcases hl : runLoop c env 0 c.iterations (initLoopState c) with ⟨es, r⟩
    rcases r with err | s'
    · rw [nodeRun_error_shape c env es err hl] at hok
      simp at hok
    · by_cases hi : c.iterations = 0
      · rw [nodeRun_zero_shape c env hi] at hok
        simp at hok
      · omega
  · intro c env hi
    have hsh := nodeRun_zero_shape c env hi
    rw [hsh]
    refine ⟨rfl, ?_, ?_, ?_, ?_⟩
    · intro j hmem
      rcases List.mem_append.mp hmem with h | h
      · simp [initEffects] at h
      · rcases hc : c.sharedParamsCounter with _ | l <;>
          simp [finalEffects, hc] at h
    · rcases hc : c.sharedParamsCounter with _ | l <;> simp [finalEffects, hc]
    · intro hmem
      rcases List.mem_append.mp hmem with h | h
      · simp [initEffects] at h
      · rcases hc : c.sharedParamsCounter with _ | l <;>
          simp [finalEffects, hc] at h
    · intro u j hmem
      rcases List.mem_append.mp hmem with h | h
      · simp [initEffects] at h
      · rcases hc : c.sharedParamsCounter with _ | l <;>
          simp [finalEffects, hc] at h

/-- Witness for C10's amended theorem: both parts at concrete inputs. -/
theorem zero_iterations_behavior_witness :
    1 ≤ cfgBase.iterations ∧
    (nodeRun cfgZeroIter (fun _ => env0)).2 = .error .nameError :=
  ⟨zero_iterations_behavior.1 cfgBase (fun _ => env0) rfl,
   (zero_iterations_behavior.2 cfgZeroIter (fun _ => env0) rfl).1⟩

theorem trainEvalStep_sched (c : NodeConf) (e : IterEnv) (i : Nat)
    (d : ResultsDict) (s : LoopState) :
    (¬(s.roundsToTrainEvaluate - 1 = 0 ∧ c.centralizedTrainEval = false) →
       (trainEvalStep c e i d s).2.2 = s.roundsToTrainEvaluate - 1) ∧
    ((s.roundsToTrainEvaluate - 1 = 0 ∧ c.centralizedTrainEval = false) →
       (trainEvalStep c e i d s).2.2 = c.trainEvaluateAfter * s.change) := by
  by_cases ht : (s.roundsToTrainEvaluate - 1 = 0 ∧ c.centralizedTrainEval = false) <;>
    simp [trainEvalStep, ht]

theorem testEvalStep_ok_sched (c : NodeConf) (e : IterEnv) (i : Nat)
    (d : ResultsDict) (s : LoopState) (es3 : List Effect) (d3 : ResultsDict)
    (rtt ge ch : Int)
    (h3 : testEvalStep c e i d s = (es3, .ok (d3, rtt, ge, ch))) :
    (¬(c.datasetTesting = true ∧ s.roundsToTest - 1 = 0) →
       rtt = s.roundsToTest - 1 ∧ ge = s.globalEpoch ∧ ch = s.change) ∧
    ((c.datasetTesting = true ∧ s.roundsToTest - 1 = 0) →
       rtt = c.testAfter * s.change ∧ ch = changeUpd s ∧
       ge = s.globalEpoch + changeUpd s) ∧
    ((c.datasetTesting = true ∧ s.roundsToTest - 1 = 0) ∧
       c.centralizedTestEval = false → es3 = [Effect.evalTestLocal i]) := by
  by_cases hd : (c.datasetTesting = true ∧ s.roundsToTest - 1 = 0)
  · by_cases hc : c.centralizedTestEval = true
    · by_cases hu : c.uid = 0
      · simp [testEvalStep, hd, hc, hu] at h3
        obtain ⟨-, -, h1, h2, h4⟩ := h3
        exact ⟨fun hcon => absurd hd hcon,
               fun _ => ⟨h1.symm, h4.symm, h2.symm⟩,
               fun hcon => absurd hc (by simp [hcon.2])⟩
      · by_cases hm : (e.starMsg.sender = 0 ∧ e.starMsg.payload = Payload.finished)
        · simp [testEvalStep, hd, hc, hu, hm] at h3
          obtain ⟨-, -, h1, h2, h4⟩ := h3
          exact ⟨fun hcon => absurd hd hcon,
                 fun _ => ⟨h1.symm, h4.symm, h2.symm⟩,
                 fun hcon => absurd hc (by simp [hcon.2])⟩
        · simp [testEvalStep, hd, hc, hu, hm] at h3
    · simp [testEvalStep, hd, hc] at h3
      obtain ⟨hes, -, h1, h2, h4⟩ := h3
      exact ⟨fun hcon => absurd hd hcon,
             fun _ => ⟨h1.symm, h4.symm, h2.symm⟩, fun _ => hes.symm⟩
  · simp [testEvalStep, hd] at h3
    obtain ⟨-, -, h1, h2, h4⟩ := h3
    exact ⟨fun _ => ⟨h1.symm, h2.symm, h4.symm⟩,
           fun hcon => absurd hcon hd, fun hcon => absurd hcon.1 hd⟩

/-- Counterexample for C6 as stated: with `test_after = 1` over 52 rounds the
test evaluations land on iterations 0..49 and 51 — the 49 leading gaps are 1
round but the last gap is 2 rounds, so the interval between consecutive
evaluations is not constant over the whole run. -/
theorem eval_schedule_cex :
    testEvalRounds (nodeRun cfgSched (fun _ => env0)).1 =
      List.range 50 ++ [51] ∧
    gapList (testEvalRounds (nodeRun cfgSched (fun _ => env0)).1) =
      List.replicate 49 1 ++ [2] ∧
    ¬ List.Chain' Eq
      (gapList (testEvalRounds (nodeRun cfgSched (fun _ => env0)).1)) := by
  refine ⟨by decide, by decide, ?_⟩
  intro hch
  have h2 : gapList (testEvalRounds (nodeRun cfgSched (fun _ => env0)).1) =
      List.replicate 49 1 ++ [2] := by decide
  rw [h2] at hch
  have := List.chain'_iff_get.mp hch 47 (by simp)
  have h48 : ((List.replicate 49 1 ++ [2] : List Nat).get ⟨47, by simp⟩) = 1 := by
    decide
  have h49 : ((List.replicate 49 1 ++ [2] : List Nat).get ⟨48, by simp⟩) = 1 := by
    decide
  have hlast := List.chain'_iff_get.mp hch 48 (by simp)
  simp only [h48, h49] at this hlast
  have h50 : ((List.replicate 49 1 ++ [2] : List Nat).get ⟨49, by simp⟩) = 2 := by
    decide
  rw [h50] at hlast
  exact absurd hlast (by decide)

/-- C6 amended: the evaluation cadence is governed by countdown counters:
on a round where the test countdown does not reach zero it just decrements;
on a test round the countdown is reset to `test_after * change`, where
`change` doubles exactly at the test evaluation where `global_epoch` is 49
and `global_epoch` grows by `change` at each test evaluation — so the
interval is `test_after` through the 50th evaluation and `2 * test_after`
afterwards, not constant over the whole run; the train-evaluation countdown
follows the same rule with `train_evaluate_after * change`; and on a
non-centralized test round the local test evaluation effect is emitted. -/
theorem eval_schedule_recurrence (c : NodeConf) (e : IterEnv) (i : Nat)
    (s s' : LoopState) (hok : (runIter c e i s).2 = .ok s') :
    (¬(c.datasetTesting = true ∧ s.roundsToTest - 1 = 0) →
       s'.roundsToTest = s.roundsToTest - 1 ∧
       s'.globalEpoch = s.globalEpoch ∧ s'.change = s.change) ∧
    ((c.datasetTesting = true ∧ s.roundsToTest - 1 = 0) →
       s'.roundsToTest = c.testAfter * s.change ∧
       s'.change = (if s.globalEpoch = 49 then s.change * 2 else s.change) ∧
       s'.globalEpoch = s.globalEpoch + s'.change) ∧
    (¬(s.roundsToTrainEvaluate - 1 = 0 ∧ c.centralizedTrainEval = false) →
       s'.roundsToTrainEvaluate = s.roundsToTrainEvaluate - 1) ∧
    ((s.roundsToTrainEvaluate - 1 = 0 ∧ c.centralizedTrainEval = false) →
       s'.roundsToTrainEvaluate = c.trainEvaluateAfter * s.change) ∧
    ((c.datasetTesting = true ∧ s.roundsToTest - 1 = 0) ∧
       c.centralizedTestEval = false →
       Effect.evalTestLocal i ∈ (runIter c e i s).1) := by
  rcases h3 : testEvalStep c e i (trainEvalStep c e i (iterBookkeep c e i s).2 s).2.1 s
    with ⟨es3, r⟩
  rcases r with err | ⟨d3, rtt, ge, ch⟩
  · rw [runIter_error_shape c e i s es3 err h3] at hok
    simp at hok
  · have hsh := runIter_ok_shape c e i s es3 d3 rtt ge ch h3
    rw [hsh] at hok
    simp only [Except.ok.injEq] at hok
    subst hok
    have hsched := testEvalStep_ok_sched c e i _ s es3 d3 rtt ge ch h3
    have htr := trainEvalStep_sched c e i (iterBookkeep c e i s).2 s
    refine ⟨fun h => ?_, fun h => ?_, fun h => htr.1 h, fun h => htr.2 h, fun h => ?_⟩
    · obtain ⟨h1, h2, h4⟩ := hsched.1 h
      exact ⟨h1, h2, h4⟩
    · obtain ⟨h1, h2, h4⟩ := hsched.2.1 h
      refine ⟨h1, by simpa [changeUpd] using h2, ?_⟩
      show ge = s.globalEpoch + ch
      rw [h2]
      exact h4
    · have hes := hsched.2.2 h
      rw [hsh, hes]
      simp

/-- Witness for C6's amended theorem: the first round of the schedule
configuration, which is a non-centralized test round. -/
theorem eval_schedule_recurrence_witness :
    (¬(cfgSched.datasetTesting = true ∧ sHand.roundsToTest - 1 = 0) →
       (okState (runIter cfgSched env0 0 sHand).2).roundsToTest =
         sHand.roundsToTest - 1 ∧
       (okState (runIter cfgSched env0 0 sHand).2).globalEpoch =
         sHand.globalEpoch ∧
       (okState (runIter cfgSched env0 0 sHand).2).change = sHand.change) ∧
    ((cfgSched.datasetTesting = true ∧ sHand.roundsToTest - 1 = 0) →
       (okState (runIter cfgSched env0 0 sHand).2).roundsToTest =
         cfgSched.testAfter * sHand.change ∧
       (okState (runIter cfgSched env0 0 sHand).2).change =
         (if sHand.globalEpoch = 49 then sHand.change * 2 else sHand.change) ∧
       (okState (runIter cfgSched env0 0 sHand).2).globalEpoch =
         sHand.globalEpoch + (okState (runIter cfgSched env0 0 sHand).2).change) ∧
    (¬(sHand.roundsToTrainEvaluate - 1 = 0 ∧
        cfgSched.centralizedTrainEval = false) →
       (okState (runIter cfgSched env0 0 sHand).2).roundsToTrainEvaluate =
         sHand.roundsToTrainEvaluate - 1) ∧
    ((sHand.roundsToTrainEvaluate - 1 = 0 ∧
        cfgSched.centralizedTrainEval = false) →
       (okState (runIter cfgSched env0 0 sHand).2).roundsToTrainEvaluate =
         cfgSched.trainEvaluateAfter * sHand.change) ∧
    ((cfgSched.datasetTesting = true ∧ sHand.roundsToTest - 1 = 0) ∧
       cfgSched.centralizedTestEval = false →
       Effect.evalTestLocal 0 ∈ (runIter cfgSched env0 0 sHand).1) :=
  eval_schedule_recurrence cfgSched env0 0 sHand
    (okState (runIter cfgSched env0 0 sHand).2) rfl

/-- Counterexample for C7 as stated: with 4 CPUs and 8 processes per machine
`floor(total_cpu / procs_per_machine)` is 0, but the node hands the trainer
1 thread. -/
theorem thread_budget_cex :
    (nodeInit cfgBase (fun _ => env0) 0 1 4 8).1.head? =
      some (Effect.setNumThreads 1) ∧
    (4 : Nat) / 8 = 0 ∧
    (nodeInit cfgBase (fun _ => env0) 0 1 4 8).1.head? ≠
      some (Effect.setNumThreads (4 / 8)) := by
  refine ⟨by decide, by decide, by decide⟩

/-- C7 amended: the thread budget handed to the trainer is
`max(floor(total_cpu / procs_per_machine), 1)`: it equals the floor whenever
the floor is at least 1, and 1 otherwise. -/
theorem thread_budget (c : NodeConf) (env : Nat → IterEnv) (cte ctev : Int)
    (t p : Nat) (hok : ¬(cte = 1 ∧ ¬ctev = 1)) :
    (nodeInit c env cte ctev t p).1.head? =
      some (Effect.setNumThreads (threads_per_proc t p)) ∧
    (1 ≤ t / p → threads_per_proc t p = t / p) ∧
    (t / p = 0 → threads_per_proc t p = 1) := by
  refine ⟨?_, fun h => Nat.max_eq_left h, fun h => by simp [threads_per_proc, h]⟩
  simp [nodeInit, hok]

/-- Witness for C7's amended theorem at 8 CPUs and 2 processes. -/
theorem thread_budget_witness :
    (nodeInit cfgBase (fun _ => env0) 0 1 8 2).1.head? =
      some (Effect.setNumThreads (threads_per_proc 8 2)) ∧
    (1 ≤ 8 / 2 → threads_per_proc 8 2 = 8 / 2) ∧
    ((8 : Nat) / 2 = 0 → threads_per_proc 8 2 = 1) :=
  thread_budget cfgBase (fun _ => env0) 0 1 8 2 (by decide)

/-- C8: the star/evaluation channel is opened with an additive address
offset equal to the star graph's process count, and under the spec-modelled
port scheme the resulting port range is disjoint from the main channel's
(offset 0) range. -/
theorem star_channel_offset (c : NodeConf) (env : Nat → IterEnv) (b : Nat) :
    Effect.openStar (starNProcs c.nProcs) (starNProcs c.nProcs) ∈
      (nodeRun c env).1 ∧
    (∀ u1 u2, u1 < c.nProcs → u2 < c.nProcs →
      channelPort b 0 u1 ≠ channelPort b (starNProcs c.nProcs) u2) := by
  constructor
  · rcases hl : runLoop c env 0 c.iterations (initLoopState c) with ⟨es, r⟩
    rcases r with err | s'
    · rw [nodeRun_error_shape c env es err hl]
      simp [initEffects]
    · by_cases hi : c.iterations = 0
      · rw [nodeRun_zero_shape c env hi]
        simp [initEffects]
      · rw [nodeRun_ok_shape c env es s' hi hl]
        simp [initEffects]
  · intro u1 u2 h1 h2
    simp only [channelPort, starNProcs]
    omega

/-- Witness for C8 at a concrete node and port base 7000. -/
theorem star_channel_offset_witness :
    Effect.openStar (starNProcs cfgBase.nProcs) (starNProcs cfgBase.nProcs) ∈
      (nodeRun cfgBase (fun _ => env0)).1 ∧
    channelPort 7000 0 1 ≠ channelPort 7000 (starNProcs cfgBase.nProcs) 0 :=
  ⟨(star_channel_offset cfgBase (fun _ => env0) 7000).1,
   (star_channel_offset cfgBase (fun _ => env0) 7000).2 1 0 (by decide) (by decide)⟩

/-! Lemmas about `Model.count_params`. -/

theorem pyFalsy_some (n : Nat) : pyFalsy (some n) = (n == 0) := rfl

theorem cacheOf_count_params (m : PyModel) (f : Bool) :
    cacheOf (count_params m f).2 f = some (count_params m f).1 := by
  cases f
  · by_cases h : pyFalsy m.paramCountTotal = true <;>
      simp [count_params, cacheOf, h]
    rcases hm : m.paramCountTotal with _ | n
    · simp [pyFalsy, hm] at h
    · simp [hm]
  · by_cases h : pyFalsy m.paramCountOT = true <;>
      simp [count_params, cacheOf, h]
    rcases hm : m.paramCountOT with _ | n
    · simp [pyFalsy, hm] at h
    · simp [hm]

theorem count_params_cache_stable (m : PyModel) (f : Bool) (n : Nat)
    (hc : cacheOf m f = some n) (hn : n ≠ 0) (op : ModelOp) :
    cacheOf (applyOp m op) f = some n := by
  rcases op with ps | f'
  · cases f <;> simpa [applyOp, cacheOf] using hc
  · cases f <;> cases f' <;> simp [cacheOf] at hc
    · simp [applyOp, count_params, cacheOf, hc, pyFalsy_some, hn]
    · by_cases h2 : pyFalsy m.paramCountOT = true <;>
        simp [applyOp, count_params, h2, cacheOf, hc]
    · by_cases h2 : pyFalsy m.paramCountTotal = true <;>
        simp [applyOp, count_params, h2, cacheOf, hc]
    · simp [applyOp, count_params, cacheOf, hc, pyFalsy_some, hn]

theorem count_params_cache_stable_ops (m : PyModel) (f : Bool) (n : Nat)
    (hc : cacheOf m f = some n) (hn : n ≠ 0) (ops : List ModelOp) :
    cacheOf (applyOps ops m) f = some n := by
  induction ops generalizing m with
  | nil => exact hc
  | cons op rest ih =>
    exact ih _ (count_params_cache_stable m f n hc hn op)

theorem count_params_of_cache (m : PyModel) (f : Bool) (n : Nat)
    (hc : cacheOf m f = some n) (hn : n ≠ 0) :
    (count_params m f).1 = n := by
  cases f <;> simp [cacheOf] at hc <;>
    simp [count_params, hc, pyFalsy, hn]

theorem count_params_falsy (m : PyModel) (f : Bool)
    (h : pyFalsy (cacheOf m f) = true) :
    (count_params m f).1 = sumParams m.params f := by
  cases f <;> simp [cacheOf] at h <;> simp [count_params, h]

theorem zero_model_invariant (m : PyModel) (f : Bool)
    (hs : sumParams m.params f = 0) (hcf : pyFalsy (cacheOf m f) = true)
    (op : ModelOp) (hop : zeroSumOp f op) :
    sumParams (applyOp m op).params f = 0 ∧
    pyFalsy (cacheOf (applyOp m op) f) = true := by
  rcases op with ps | f'
  · exact ⟨hop, by cases f <;> simpa [applyOp, cacheOf] using hcf⟩
  · cases f <;> cases f' <;> simp [cacheOf] at hcf
    · simp [applyOp, count_params, hcf, cacheOf, hs, pyFalsy_some]
    · by_cases h2 : pyFalsy m.paramCountOT = true <;>
        simp [applyOp, count_params, h2, cacheOf, hcf, hs]
    · by_cases h2 : pyFalsy m.paramCountTotal = true <;>
        simp [applyOp, count_params, h2, cacheOf, hcf, hs]
    · simp [applyOp, count_params, hcf, cacheOf, hs, pyFalsy_some]

theorem zero_model_invariant_ops (m : PyModel) (f : Bool)
    (hs : sumParams m.params f = 0) (hcf : pyFalsy (cacheOf m f) = true)
    (ops : List ModelOp) (hops : ∀ op ∈ ops, zeroSumOp f op) :
    sumParams (applyOps ops m).params f = 0 ∧
    pyFalsy (cacheOf (applyOps ops m) f) = true := by
  induction ops generalizing m with
  | nil => exact ⟨hs, hcf⟩
  | cons op rest ih =>
    have h1 := zero_model_invariant m f hs hcf op (hops op (by simp))
    exact ih _ h1.1 h1.2 (fun o ho => hops o (by simp [ho]))

/-- C9: `Model.count_params` memoizes per flag: once a call with a given
`only_trainable` flag has returned a nonzero count, every later call with
the same flag returns that same cached value regardless of intervening
parameter mutations or calls with the other flag; whereas a model whose
parameter sum is (and stays) zero keeps a falsy cache, so every call takes
the recompute branch and returns the freshly computed sum, namely zero. -/
theorem count_params_memoization :
    (∀ (m : PyModel) (f : Bool), (count_params m f).1 ≠ 0 →
       ∀ ops : List ModelOp,
         (count_params (applyOps ops (count_params m f).2) f).1 =
           (count_params m f).1) ∧
    (∀ (ps : List (Nat × Bool)) (f : Bool) (ops : List ModelOp),
       sumParams ps f = 0 → (∀ op ∈ ops, zeroSumOp f op) →
       pyFalsy (cacheOf (applyOps ops (mkModel ps)) f) = true ∧
       (count_params (applyOps ops (mkModel ps)) f).1 =
         sumParams (applyOps ops (mkModel ps)).params f ∧
       (count_params (applyOps ops (mkModel ps)) f).1 = 0) := by
  constructor
  · intro m f hn ops
    have hc := cacheOf_count_params m f
    have hstable := count_params_cache_stable_ops _ f _ hc hn ops
    exact count_params_of_cache _ f _ hstable hn
  · intro ps f ops hs hops
    have hcf : pyFalsy (cacheOf (mkModel ps) f) = true := by
      cases f <;> rfl
    have hinv := zero_model_invariant_ops (mkModel ps) f hs hcf ops hops
    refine ⟨hinv.2, count_params_falsy _ f hinv.2, ?_⟩
    rw [count_params_falsy _ f hinv.2]
    exact hinv.1

/-- Witness for C9: a model with one 3-element trainable parameter keeps
returning 3 after the parameter set is emptied; a fresh empty model returns
0. -/
theorem count_params_memoization_witness :
    (count_params (applyOps [ModelOp.setParams []]
       (count_params (mkModel [(3, true)]) true).2) true).1 =
      (count_params (mkModel [(3, true)]) true).1 ∧
    (count_params (applyOps [] (mkModel [])) false).1 = 0 :=
  ⟨count_params_memoization.1 (mkModel [(3, true)]) true (by decide)
     [ModelOp.setParams []],
   (count_params_memoization.2 [] false [] (by decide) (by simp)).2.2⟩

end Facade
